import Mathlib

/-!
ADV7611 HDMI receiver driver (`drivers/misc/adv7611.c`)

A shallow embedding of the driver's bring-up and EDID replacement code and
theorems about the bus traffic it produces.

Modelling conventions.

* Bytes are natural numbers.  A C pointer to bytes is a function `Nat → Nat`
  giving the byte at each offset from the pointer.
* The bus is an oracle `Transport`: the return code of the `n`-th call of
  `i2c_transfer` (counting from `State.ntransfer`) for the message handed to it.
  Every behaviour of a real bus during one run is described by such an oracle.
* Every call of `i2c_transfer`, `mdelay`, `mutex_lock` and `mutex_unlock` is
  appended to `State.log`, in program order.
* `pr_err`, `dev_warn`, `dev_info`, `i2c_set_clientdata` and `i2c_put_adapter`
  have no effect on the modelled state and are left out.
-/

namespace Adv7611

/-! ## Constants -/

def ADV7611_I2C_IO_ADDR : Nat := 0x98
def ADV7611_I2C_CEC_ADDR : Nat := 0x80
def ADV7611_I2C_INFOFRAME_ADDR : Nat := 0x6A
def ADV7611_I2C_DPLL_ADDR : Nat := 0x4C
def ADV7611_I2C_KSV_ADDR : Nat := 0x64
def ADV7611_I2C_EDID_ADDR : Nat := 0x6C
def ADV7611_I2C_HDMI_ADDR : Nat := 0x68
def ADV7611_I2C_CP_ADDR : Nat := 0x44

def ADV7611_EDID_SIZE : Nat := 256
def ADV7611_EDID_BUFFER_SIZE : Nat := ADV7611_EDID_SIZE + 1

def ADV7611_HPA_DELAY_MS : Int := 500

/-- The read flag of `struct i2c_msg` (`include/uapi/linux/i2c.h`). -/
def I2C_M_RD : Nat := 0x0001

def ENOMEM : Int := 12
def ENODEV : Int := 19

/-! ## Data model -/

/-- One message as handed to `i2c_transfer`: the 7-bit address, the flags and
the first `len` bytes of the buffer `msg->buf` points to. -/
structure Xfer where
  addr : Nat
  flags : Nat
  data : List Nat
deriving DecidableEq, Repr

/-- The calls the driver makes to the kernel that the claims talk about. -/
inductive Event where
  | xfer (x : Xfer)
  | mdelay (ms : Int)
  | mutex_lock
  | mutex_unlock
deriving DecidableEq, Repr

/-- The bus: the return code of `i2c_transfer` for the `n`-th transfer. A
negative value is an error, anything else a success. -/
abbrev Transport := Nat → Xfer → Int

/-- What `msg->buf` points to: the byte array local to the entry function
(`data_buff` in `adv7611_device_config`, `msg_buf` in `adv7611_set_edid`) or
the global `adv7611_edid_buffer`. -/
inductive BufPtr where
  | stack
  | edid
deriving DecidableEq, Repr

/-- The fields of `struct i2c_msg` the driver uses. -/
structure I2cMsg where
  addr : Nat
  flags : Nat
  len : Nat
  buf : BufPtr
deriving DecidableEq, Repr

/-- The driver's memory and the history of its kernel calls.
`msg` is the `struct i2c_msg` local to the entry function, which the helpers
receive by pointer; `lock` is `data->lock`. -/
structure State where
  adv7611_edid_buffer : Nat → Nat
  stack_buf : Nat → Nat
  msg : I2cMsg
  lock : Bool
  ntransfer : Nat
  log : List Event

/-- The bytes at `p`. -/
def State.mem (s : State) (p : BufPtr) : Nat → Nat :=
  match p with
  | BufPtr.stack => s.stack_buf
  | BufPtr.edid => s.adv7611_edid_buffer

/-- The assignment `p[i] = v`. -/
def State.store (s : State) (p : BufPtr) (i v : Nat) : State :=
  match p with
  | BufPtr.stack => { s with stack_buf := Function.update s.stack_buf i v }
  | BufPtr.edid =>
    { s with adv7611_edid_buffer := Function.update s.adv7611_edid_buffer i v }

/-- The call `memcpy(&dst[off], src, n)`. -/
def memcpy (dst : Nat → Nat) (off : Nat) (src : Nat → Nat) (n : Nat) : Nat → Nat :=
  fun i => if off ≤ i ∧ i < off + n then src (i - off) else dst i

/-- A byte array seen through a pointer to its first element. -/
def ptr (a : List Nat) : Nat → Nat := fun i => a.getD i 0

/-- The call `mdelay(ms)`. -/
def mdelay (s : State) (ms : Int) : State :=
  { s with log := s.log ++ [Event.mdelay ms] }

/-! ## Register tables (each ends with the `{0, 0, 0}` sentinel) -/

def adv7611_io_mapping : List (Nat × Nat × Nat) := [
  (ADV7611_I2C_IO_ADDR, 0xF4, ADV7611_I2C_CEC_ADDR),
  (ADV7611_I2C_IO_ADDR, 0xF5, ADV7611_I2C_INFOFRAME_ADDR),
  (ADV7611_I2C_IO_ADDR, 0xF8, ADV7611_I2C_DPLL_ADDR),
  (ADV7611_I2C_IO_ADDR, 0xF9, ADV7611_I2C_KSV_ADDR),
  (ADV7611_I2C_IO_ADDR, 0xFA, ADV7611_I2C_EDID_ADDR),
  (ADV7611_I2C_IO_ADDR, 0xFB, ADV7611_I2C_HDMI_ADDR),
  (ADV7611_I2C_IO_ADDR, 0xFD, ADV7611_I2C_CP_ADDR),
  (0, 0, 0)]

def adv7611_hdmi_hpa : List (Nat × Nat × Nat) := [
  (ADV7611_I2C_HDMI_ADDR, 0x6C, 0x13),
  (0, 0, 0)]

def adv7611_hdmi_edid_pre : List (Nat × Nat × Nat) := [
  (ADV7611_I2C_KSV_ADDR, 0x77, 0x00),
  (0, 0, 0)]

def adv7611_hdmi_edid_post : List (Nat × Nat × Nat) := [
  (ADV7611_I2C_KSV_ADDR, 0x77, 0x00),
  (ADV7611_I2C_KSV_ADDR, 0x52, 0x20),
  (ADV7611_I2C_KSV_ADDR, 0x53, 0x00),
  (ADV7611_I2C_KSV_ADDR, 0x70, 0x9E),
  (ADV7611_I2C_KSV_ADDR, 0x74, 0x03),
  (0, 0, 0)]

def adv7611_initial_edid : List Nat := [
  0x00, 0xff, 0xff, 0xff, 0xff, 0xff, 0xff, 0x00,
  0x06, 0xd4, 0x00, 0x00, 0x00, 0x00, 0x00, 0x00,
  0x00, 0x16, 0x01, 0x03, 0x81, 0x46, 0x27, 0x78,
  0x0a, 0x32, 0x30, 0xa1, 0x54, 0x52, 0x9e, 0x26,
  0x0a, 0x49, 0x4b, 0xa3, 0x08, 0x00, 0x81, 0xc0,
  0x81, 0x00, 0x81, 0x0f, 0x81, 0x40, 0x81, 0x80,
  0x95, 0x00, 0xb3, 0x00, 0x01, 0x01, 0x02, 0x3a,
  0x80, 0x18, 0x71, 0x38, 0x2d, 0x40, 0x58, 0x2c,
  0x45, 0x00, 0xc4, 0x8e, 0x21, 0x00, 0x00, 0x1e,
  0xa9, 0x1a, 0x00, 0xa0, 0x50, 0x00, 0x16, 0x30,
  0x30, 0x20, 0x37, 0x00, 0xc4, 0x8e, 0x21, 0x00,
  0x00, 0x1a, 0x00, 0x00, 0x00, 0xfc, 0x00, 0x46,
  0x4d, 0x43, 0x2d, 0x49, 0x4d, 0x41, 0x47, 0x45,
  0x4f, 0x4e, 0x0a, 0x20, 0x00, 0x00, 0x00, 0xfd,
  0x00, 0x38, 0x4b, 0x20, 0x44, 0x11, 0x00, 0x0a,
  0x20, 0x20, 0x20, 0x20, 0x20, 0x20, 0x01, 0x54,
  0x02, 0x03, 0x1f, 0x71, 0x4b, 0x90, 0x03, 0x04,
  0x05, 0x12, 0x13, 0x14, 0x1f, 0x20, 0x07, 0x16,
  0x26, 0x15, 0x07, 0x50, 0x09, 0x07, 0x01, 0x67,
  0x03, 0x0c, 0x00, 0x10, 0x00, 0x00, 0x1e, 0x01,
  0x1d, 0x00, 0x72, 0x51, 0xd0, 0x1e, 0x20, 0x6e,
  0x28, 0x55, 0x00, 0xc4, 0x8e, 0x21, 0x00, 0x00,
  0x1e, 0x01, 0x1d, 0x80, 0x18, 0x71, 0x1c, 0x16,
  0x20, 0x58, 0x2c, 0x25, 0x00, 0xc4, 0x8e, 0x21,
  0x00, 0x00, 0x9e, 0x8c, 0x0a, 0xd0, 0x8a, 0x20,
  0xe0, 0x2d, 0x10, 0x10, 0x3e, 0x96, 0x00, 0xc4,
  0x8e, 0x21, 0x00, 0x00, 0x18, 0x01, 0x1d, 0x80,
  0x3e, 0x73, 0x38, 0x2d, 0x40, 0x7e, 0x2c, 0x45,
  0x80, 0xc4, 0x8e, 0x21, 0x00, 0x00, 0x1e, 0x1a,
  0x36, 0x80, 0xa0, 0x70, 0x38, 0x1f, 0x40, 0x30,
  0x20, 0x25, 0x00, 0xc4, 0x8e, 0x21, 0x00, 0x00,
  0x1a, 0x00, 0x00, 0x00, 0x00, 0x00, 0x00, 0x01]

def adv7611_config : List (Nat × Nat × Nat) := [
  (ADV7611_I2C_IO_ADDR, 0x01, 0x06),
  (ADV7611_I2C_IO_ADDR, 0x02, 0xF5),
  (ADV7611_I2C_IO_ADDR, 0x03, 0x80),
  (ADV7611_I2C_IO_ADDR, 0x04, 0x62),
  (ADV7611_I2C_IO_ADDR, 0x05, 0x2C),
  (ADV7611_I2C_CP_ADDR, 0x7B, 0x05),
  (ADV7611_I2C_IO_ADDR, 0x0B, 0x44),
  (ADV7611_I2C_IO_ADDR, 0x0C, 0x42),
  (ADV7611_I2C_IO_ADDR, 0x14, 0x7F),
  (ADV7611_I2C_IO_ADDR, 0x15, 0x80),
  (ADV7611_I2C_IO_ADDR, 0x19, 0x80),
  (ADV7611_I2C_IO_ADDR, 0x33, 0x40),
  (ADV7611_I2C_CP_ADDR, 0xBA, 0x01),
  (ADV7611_I2C_KSV_ADDR, 0x40, 0x81),
  (ADV7611_I2C_HDMI_ADDR, 0x9B, 0x03),
  (ADV7611_I2C_HDMI_ADDR, 0xC1, 0x01),
  (ADV7611_I2C_HDMI_ADDR, 0xC2, 0x01),
  (ADV7611_I2C_HDMI_ADDR, 0xC3, 0x01),
  (ADV7611_I2C_HDMI_ADDR, 0xC4, 0x01),
  (ADV7611_I2C_HDMI_ADDR, 0xC5, 0x01),
  (ADV7611_I2C_HDMI_ADDR, 0xC6, 0x01),
  (ADV7611_I2C_HDMI_ADDR, 0xC7, 0x01),
  (ADV7611_I2C_HDMI_ADDR, 0xC8, 0x01),
  (ADV7611_I2C_HDMI_ADDR, 0xC9, 0x01),
  (ADV7611_I2C_HDMI_ADDR, 0xCA, 0x01),
  (ADV7611_I2C_HDMI_ADDR, 0xCB, 0x01),
  (ADV7611_I2C_HDMI_ADDR, 0xCC, 0x01),
  (ADV7611_I2C_HDMI_ADDR, 0x00, 0x08),
  (ADV7611_I2C_HDMI_ADDR, 0x02, 0x03),
  (ADV7611_I2C_HDMI_ADDR, 0x83, 0xFC),
  (ADV7611_I2C_HDMI_ADDR, 0x6F, 0x0C),
  (ADV7611_I2C_HDMI_ADDR, 0x85, 0x1F),
  (ADV7611_I2C_HDMI_ADDR, 0x87, 0x70),
  (ADV7611_I2C_HDMI_ADDR, 0x8D, 0x04),
  (ADV7611_I2C_HDMI_ADDR, 0x8E, 0x1E),
  (ADV7611_I2C_HDMI_ADDR, 0x1A, 0x8A),
  (ADV7611_I2C_HDMI_ADDR, 0x57, 0xDA),
  (ADV7611_I2C_HDMI_ADDR, 0x58, 0x01),
  (ADV7611_I2C_HDMI_ADDR, 0x75, 0x10),
  (ADV7611_I2C_HDMI_ADDR, 0x90, 0x04),
  (ADV7611_I2C_HDMI_ADDR, 0x91, 0x1E),
  (0, 0, 0)]

def adv7611_i2s_config : List (Nat × Nat × Nat) := [
  (ADV7611_I2C_HDMI_ADDR, 0x03, 0x10),
  (ADV7611_I2C_HDMI_ADDR, 0x6E, 0x00),
  (0, 0, 0)]

/-! ## The driver -/

/-- The flags after `msg->flags &= ~I2C_M_RD` (`flags` is a `__u16`). -/
def clear_rd (flags : Nat) : Nat := flags &&& (0xFFFF ^^^ I2C_M_RD)

/-- The function `adv7611_set_reg`: clear the read flag, set the length and hand the
message to `i2c_transfer`; its return code is returned unchanged. -/
def adv7611_set_reg (t : Transport) (s : State) (len : Nat) : Int × State :=
  let msg : I2cMsg :=
    { addr := s.msg.addr, flags := clear_rd s.msg.flags, len := len, buf := s.msg.buf }
  let x : Xfer :=
    { addr := msg.addr, flags := msg.flags,
      data := (List.range msg.len).map (s.mem msg.buf) }
  (t s.ntransfer x,
   { s with msg := msg, ntransfer := s.ntransfer + 1, log := s.log ++ [Event.xfer x] })

/-- The loop shared, with a different table each time, by `adv7611_mapping`,
`adv7611_hdmi_edid` and `adv7611_input_config`:
`while (table[i][0]) { msg->addr = table[i][0] >> 1; msg->buf[0] = table[i][1];
msg->buf[1] = table[i][2]; ret = adv7611_set_reg(adapter, msg, 2);
if (ret < 0) return ret; i++; }`.
The argument is the table from row `i` on.  A negative first component is the
value the enclosing function returns at once; otherwise the loop has ended at
a row whose selector is zero and the first component is `0`.  (Every table
contains such a row, so the empty case, reading past the end of the array,
is never reached.) -/
def reg_table_loop (t : Transport) : List (Nat × Nat × Nat) → State → Int × State
  | [], s => (0, s)
  | row :: rest, s =>
    if row.1 = 0 then (0, s)
    else
      let s1 : State := { s with msg := { s.msg with addr := row.1 >>> 1 } }
      let s2 := s1.store s1.msg.buf 0 row.2.1
      let s3 := s2.store s2.msg.buf 1 row.2.2
      let r := adv7611_set_reg t s3 2
      if r.1 < 0 then r else reg_table_loop t rest r.2

/-- The function `adv7611_mapping`. -/
def adv7611_mapping (t : Transport) (s : State) : Int × State :=
  let r := reg_table_loop t adv7611_io_mapping s
  if r.1 < 0 then r else (0, r.2)

/-- The function `adv7611_hdmi_edid`. From the block write on `msg->buf` points to
`adv7611_edid_buffer`, also after the function has returned. -/
def adv7611_hdmi_edid (t : Transport) (s : State) : Int × State :=
  let r := reg_table_loop t adv7611_hdmi_hpa s
  if r.1 < 0 then r else
  let r := reg_table_loop t adv7611_hdmi_edid_pre r.2
  if r.1 < 0 then r else
  let s1 : State := { r.2 with msg := { r.2.msg with addr := ADV7611_I2C_EDID_ADDR >>> 1 } }
  let s2 : State :=
    { s1 with adv7611_edid_buffer := Function.update s1.adv7611_edid_buffer 0 0 }
  let s3 : State :=
    { s2 with adv7611_edid_buffer :=
        (memcpy s2.adv7611_edid_buffer 1 (ptr adv7611_initial_edid)
          adv7611_initial_edid.length) }
  let s4 : State := { s3 with msg := { s3.msg with buf := BufPtr.edid } }
  let r := adv7611_set_reg t s4 ADV7611_EDID_BUFFER_SIZE
  if r.1 < 0 then r else
  let r := reg_table_loop t adv7611_hdmi_edid_post r.2
  if r.1 < 0 then r else (0, r.2)

/-- The function `adv7611_input_config`. -/
def adv7611_input_config (t : Transport) (s : State) : Int × State :=
  let r := reg_table_loop t adv7611_config s
  if r.1 < 0 then r else
  let r := reg_table_loop t adv7611_i2s_config r.2
  if r.1 < 0 then r else
  (0, mdelay r.2 10)

/-- The function `adv7611_hpa`. -/
def adv7611_hpa (t : Transport) (s : State) (delay : Int) : Int × State :=
  let s1 : State := { s with msg := { s.msg with addr := ADV7611_I2C_IO_ADDR >>> 1 } }
  let s2 := s1.store s1.msg.buf 0 0x20
  let s3 := s2.store s2.msg.buf 1 0x00
  let r := adv7611_set_reg t s3 2
  if r.1 < 0 then r else
  let s4 := mdelay r.2 delay
  let s5 := s4.store s4.msg.buf 1 0x80
  let r := adv7611_set_reg t s5 2
  if r.1 < 0 then r else (0, r.2)

/-- Modelled from the spec: `memory_read_from_buffer` (`fs/libfs.c`, not under
src/), the helper behind the read surface: the window of `count` bytes at
offset `pos` of the `available` bytes at `src`, cut at the end of the data and
served from memory.  The result is the return value and the bytes copied. -/
def memory_read_from_buffer (count : Nat) (pos : Int) (src : Nat → Nat)
    (available : Nat) : Int × List Nat :=
  if pos < 0 then (-22, [])
  else if pos ≥ available then (0, [])
  else
    let n := min count (available - pos.toNat)
    (n, (List.range n).map (fun i => src (pos.toNat + i)))

/-- The function `adv7611_edid_read`: the return value and the bytes copied to `buf`. -/
def adv7611_edid_read (s : State) (off : Int) (count : Nat) : Int × List Nat :=
  memory_read_from_buffer count off (fun i => s.adv7611_edid_buffer (1 + i))
    ADV7611_EDID_SIZE

/-- The function `adv7611_set_edid`.  `buf` is the caller's pointer; `msg` and `msg_buf`
are locals (`State.msg`, `State.stack_buf`), `msg.len` is not initialised. -/
def adv7611_set_edid (t : Transport) (s : State) (buf : Nat → Nat) : Int × State :=
  let s1 : State :=
    { s with msg := { s.msg with flags := 0, addr := ADV7611_I2C_EDID_ADDR >>> 1 } }
  let s2 : State :=
    { s1 with adv7611_edid_buffer := Function.update s1.adv7611_edid_buffer 0 0 }
  let s3 : State :=
    { s2 with adv7611_edid_buffer :=
        (memcpy s2.adv7611_edid_buffer 1 buf ADV7611_EDID_SIZE) }
  let s4 : State := { s3 with msg := { s3.msg with buf := BufPtr.edid } }
  let r := adv7611_set_reg t s4 ADV7611_EDID_BUFFER_SIZE
  if r.1 < 0 then r else
  let s5 : State := { r.2 with msg := { r.2.msg with buf := BufPtr.stack } }
  let h := adv7611_hpa t s5 ADV7611_HPA_DELAY_MS
  (0, h.2)

/-- Modelled from the spec: `mutex_lock` (kernel locking, not under src/) on
the mutual-exclusion lock `data->lock`: a free lock is taken; on a held lock
the caller blocks, which in a run of one caller means no result. -/
def mutex_lock (s : State) : Option State :=
  if s.lock then none
  else some { s with lock := true, log := s.log ++ [Event.mutex_lock] }

/-- Modelled from the spec: `mutex_unlock` (kernel locking, not under src/):
the lock is released. -/
def mutex_unlock (s : State) : State :=
  { s with lock := false, log := s.log ++ [Event.mutex_unlock] }

/-- The conversion of a `size_t` value to `ssize_t` on a machine whose `long`
has `bits` bits: the value modulo `2 ^ bits`, read as a two's complement
number. -/
def to_ssize_t (bits n : Nat) : Int :=
  if n % 2 ^ bits < 2 ^ (bits - 1) then ((n % 2 ^ bits : Nat) : Int)
  else ((n % 2 ^ bits : Nat) : Int) - ((2 ^ bits : Nat) : Int)

/-- The function `adv7611_edid_write`.  The offset `off` and `count` are the
arguments of the call; the function never reads `off`.  It returns the
`size_t count` as an `ssize_t`; the width `BITS_PER_LONG` of the two types
(32 or 64 on Linux) is a parameter. -/
def adv7611_edid_write (BITS_PER_LONG : Nat) (t : Transport) (s : State)
    (buf : Nat → Nat) (_off : Int) (count : Nat) : Option (Int × State) :=
  match mutex_lock s with
  | none => none
  | some s1 =>
    let r := adv7611_set_edid t s1 buf
    let s2 := mutex_unlock r.2
    if r.1 < 0 then some (r.1, s2) else some (to_ssize_t BITS_PER_LONG count, s2)

/-- What the kernel services called by `adv7611_device_config` answer:
whether `client->adapter` is set, whether `kzalloc` succeeds, and the return
value of `sysfs_create_bin_file`. -/
structure Env where
  adapter : Bool
  kzalloc_ok : Bool
  sysfs_ret : Int

/-- The function `adv7611_device_config`.  `data_buff` (`State.stack_buf`) is not
initialised; `mutex_init` leaves the lock free. -/
def adv7611_device_config (t : Transport) (env : Env) (s : State) : Int × State :=
  let si : State :=
    { s with msg := { addr := 0, flags := 0, len := 0, buf := BufPtr.stack } }
  if !env.adapter then (-ENODEV, si) else
  if !env.kzalloc_ok then (-ENOMEM, si) else
  let s1 : State := { si with lock := false }
  let r := adv7611_mapping t s1
  if r.1 < 0 then r else
  let r := adv7611_hdmi_edid t r.2
  if r.1 < 0 then r else
  let r := adv7611_input_config t r.2
  if r.1 < 0 then r else
  let r := adv7611_hpa t r.2 ADV7611_HPA_DELAY_MS
  if r.1 < 0 then r else
  if env.sysfs_ret ≠ 0 then (env.sysfs_ret, r.2) else (0, r.2)

/-! ## Reference view of the bus traffic -/

/-- What a call leaves for its caller to see: the return value, the number of
transfers made so far and the history of kernel calls. -/
def obs (r : Int × State) : Int × Nat × List Event :=
  (r.1, r.2.ntransfer, r.2.log)

/-- The transfers recorded in a history, in order. -/
def xfers : List Event → List Xfer
  | [] => []
  | Event.xfer x :: rest => x :: xfers rest
  | _ :: rest => xfers rest

/-- The write a table entry `{a, r, v}` stands for: the two bytes `[r, v]`
to the 7-bit address `a >> 1`. -/
def op_xfer (o : Nat × Nat × Nat) : Xfer :=
  { addr := o.1 >>> 1, flags := 0, data := [o.2.1, o.2.2] }

/-- The writes of a table: one per entry, the closing sentinel left out. -/
def table_xfers (table : List (Nat × Nat × Nat)) : List Xfer :=
  table.dropLast.map op_xfer

/-- The rows the loop visits: those before the first zero selector. -/
def live_rows (table : List (Nat × Nat × Nat)) : List (Nat × Nat × Nat) :=
  table.takeWhile (fun o => o.1 ≠ 0)

/-- The block write of the EDID buffer: sub-address byte `0x00`, then the
payload, to the EDID sub-device. -/
def edid_block (payload : List Nat) : Xfer :=
  { addr := ADV7611_I2C_EDID_ADDR >>> 1, flags := 0, data := 0 :: payload }

/-- The write of value `v` to the HPD control register `0x20` of the IO
sub-device. -/
def hpd_write (v : Nat) : Xfer :=
  { addr := ADV7611_I2C_IO_ADDR >>> 1, flags := 0, data := [0x20, v] }

/-- The same write with the message flags `flags` (the read flag is always
clear when the message reaches the bus). -/
def hpd_xfer (flags v : Nat) : Xfer :=
  { addr := ADV7611_I2C_IO_ADDR >>> 1, flags := flags, data := [0x20, v] }

/-- One hot-plug pulse: de-assert, wait, assert. -/
def hpa_events (delay : Int) : List Event :=
  [Event.xfer (hpd_write 0x00), Event.mdelay delay, Event.xfer (hpd_write 0x80)]

/-- The 60 transfers of a bring-up on which no transfer fails. -/
def bringup_xfers : List Xfer :=
  table_xfers adv7611_io_mapping ++ table_xfers adv7611_hdmi_hpa ++
  table_xfers adv7611_hdmi_edid_pre ++ [edid_block adv7611_initial_edid] ++
  table_xfers adv7611_hdmi_edid_post ++ table_xfers adv7611_config ++
  table_xfers adv7611_i2s_config ++ [hpd_write 0x00, hpd_write 0x80]

/-- The kernel calls of a bring-up on which no transfer fails. -/
def bringup_events : List Event :=
  (table_xfers adv7611_io_mapping).map Event.xfer ++
  ((table_xfers adv7611_hdmi_hpa).map Event.xfer ++
   (table_xfers adv7611_hdmi_edid_pre).map Event.xfer ++
   [Event.xfer (edid_block adv7611_initial_edid)] ++
   (table_xfers adv7611_hdmi_edid_post).map Event.xfer) ++
  ((table_xfers adv7611_config).map Event.xfer ++
   (table_xfers adv7611_i2s_config).map Event.xfer ++ [Event.mdelay 10]) ++
  hpa_events ADV7611_HPA_DELAY_MS

/-- A script of kernel calls played against the bus, stopping right after the
first transfer the bus fails: the error (or `0`), the number of transfers made
and the history. -/
def play (t : Transport) : List Event → Nat → List Event → Int × Nat × List Event
  | [], n, log => (0, n, log)
  | Event.xfer x :: rest, n, log =>
    if t n x < 0 then (t n x, n + 1, log ++ [Event.xfer x])
    else play t rest (n + 1) (log ++ [Event.xfer x])
  | Event.mdelay ms :: rest, n, log => play t rest n (log ++ [Event.mdelay ms])
  | Event.mutex_lock :: rest, n, log => play t rest n (log ++ [Event.mutex_lock])
  | Event.mutex_unlock :: rest, n, log => play t rest n (log ++ [Event.mutex_unlock])

/-- The part of a script up to and including its transfer number `j`
(counted from 0). -/
def upto : List Event → Nat → List Event
  | [], _ => []
  | Event.xfer x :: _, 0 => [Event.xfer x]
  | Event.xfer x :: rest, j + 1 => Event.xfer x :: upto rest j
  | Event.mdelay ms :: rest, j => Event.mdelay ms :: upto rest j
  | Event.mutex_lock :: rest, j => Event.mutex_lock :: upto rest j
  | Event.mutex_unlock :: rest, j => Event.mutex_unlock :: upto rest j

/-- Run `f`, and `g` after it unless `f` failed. -/
def seq (f g : State → Int × State) (s : State) : Int × State :=
  if (f s).1 < 0 then f s else g (f s).2

/-- The function `f`, started with cleared message flags, makes exactly the
kernel calls of `evs` up to the first failing transfer, returns that
transfer's error (or `0`), and leaves the flags cleared. -/
def Runs (t : Transport) (f : State → Int × State) (evs : List Event) : Prop :=
  ∀ s : State, s.msg.flags = 0 →
    obs (f s) = play t evs s.ntransfer s.log ∧ (f s).2.msg.flags = 0

/-- The state in which `adv7611_set_edid` starts the hot-plug pulse. -/
def set_edid_mid (s : State) (buf : Nat → Nat) : State :=
  { adv7611_edid_buffer := memcpy (Function.update s.adv7611_edid_buffer 0 0) 1 buf 256,
    stack_buf := s.stack_buf,
    msg := { addr := ADV7611_I2C_EDID_ADDR >>> 1, flags := 0, len := 257, buf := BufPtr.stack },
    lock := s.lock,
    ntransfer := s.ntransfer + 1,
    log := s.log ++ [Event.xfer (edid_block ((List.range 256).map buf))] }

/-- A bus on which every transfer succeeds. -/
def okT : Transport := fun _ _ => 1

/-- A bus that fails the transfer number `n` (counted from 0) with `-EIO` and
no other. -/
def failAt (n : Nat) : Transport := fun i _ => if i = n then -5 else 1

/-- The state at module load: zeroed buffers, free lock, empty history. -/
def s0 : State :=
  { adv7611_edid_buffer := fun _ => 0, stack_buf := fun _ => 0,
    msg := { addr := 0, flags := 0, len := 0, buf := BufPtr.stack },
    lock := false, ntransfer := 0, log := [] }

/-- Kernel services that all succeed. -/
def env0 : Env := { adapter := true, kzalloc_ok := true, sysfs_ret := 0 }

/-! ## Lemmas -/

@[simp] theorem store_msg (s : State) (p : BufPtr) (i v : Nat) :
    (s.store p i v).msg = s.msg := by
  cases p <;> rfl

@[simp] theorem store_ntransfer (s : State) (p : BufPtr) (i v : Nat) :
    (s.store p i v).ntransfer = s.ntransfer := by
  cases p <;> rfl

@[simp] theorem store_log (s : State) (p : BufPtr) (i v : Nat) :
    (s.store p i v).log = s.log := by
  cases p <;> rfl

@[simp] theorem mem_store (s : State) (p : BufPtr) (i v : Nat) :
    (s.store p i v).mem p = Function.update (s.mem p) i v := by
  cases p <;> rfl

theorem play_append (t : Transport) (a b : List Event) :
    ∀ (n : Nat) (log : List Event),
      play t (a ++ b) n log =
        if (play t a n log).1 < 0 then play t a n log
        else play t b (play t a n log).2.1 (play t a n log).2.2 := by
  induction a with
  | nil => intro n log; simp [play]
  | cons e rest ih =>
    intro n log
    cases e with
    | xfer x =>
      by_cases h : t n x < 0
      · simp [play, h]
      · simp [play, h, ih]
    | mdelay ms => simp [play, ih]
    | mutex_lock => simp [play, ih]
    | mutex_unlock => simp [play, ih]

theorem runs_seq (t : Transport) (f g : State → Int × State) (a b : List Event)
    (hf : Runs t f a) (hg : Runs t g b) : Runs t (seq f g) (a ++ b) := by
  intro s hs
  obtain ⟨h1, h2⟩ := hf s hs
  have h1a : (f s).1 = (play t a s.ntransfer s.log).1 := by
    have := congrArg Prod.fst h1; simpa [obs] using this
  rw [play_append]
  unfold seq
  by_cases h : (f s).1 < 0
  · have h' : (play t a s.ntransfer s.log).1 < 0 := by rw [← h1a]; exact h
    simp only [h, h', if_true]
    exact ⟨h1, h2⟩
  · have h' : ¬ (play t a s.ntransfer s.log).1 < 0 := by rw [← h1a]; exact h
    simp only [h, h', if_false]
    obtain ⟨g1, g2⟩ := hg (f s).2 h2
    refine ⟨?_, g2⟩
    rw [g1, ← h1]
    rfl

theorem runs_ret0 (t : Transport) : Runs t (fun s => (0, s)) [] := by
  intro s hs
  exact ⟨rfl, hs⟩

theorem flags_clear : clear_rd 0 = 0 := by decide

theorem clear_rd_idem (f : Nat) : clear_rd (clear_rd f) = clear_rd f := by
  simp [clear_rd, Nat.and_assoc]

/-- One pass of the register loop body for a live row. -/
theorem set_reg_row (t : Transport) (s : State) (row : Nat × Nat × Nat)
    (hs : s.msg.flags = 0) :
    let s1 : State := { s with msg := { s.msg with addr := row.1 >>> 1 } }
    let r := adv7611_set_reg t ((s1.store s1.msg.buf 0 row.2.1).store s1.msg.buf 1 row.2.2) 2
    r.1 = t s.ntransfer (op_xfer row) ∧ r.2.ntransfer = s.ntransfer + 1 ∧
    r.2.log = s.log ++ [Event.xfer (op_xfer row)] ∧ r.2.msg.flags = 0 := by
  simp [adv7611_set_reg, op_xfer, hs, flags_clear, List.range_succ, List.range_zero]

theorem reg_table_loop_runs (t : Transport) (table : List (Nat × Nat × Nat)) :
    Runs t (reg_table_loop t table) ((live_rows table).map (fun o => Event.xfer (op_xfer o))) := by
  induction table with
  | nil => intro s hs; exact ⟨rfl, hs⟩
  | cons row rest ih =>
    intro s hs
    by_cases h0 : row.1 = 0
    · simp [reg_table_loop, live_rows, h0, play, obs, hs]
    · obtain ⟨e1, e2, e3, e4⟩ := set_reg_row t s row hs
      simp only [] at e1 e2 e3 e4
      simp only [reg_table_loop, h0, if_false, live_rows, List.takeWhile_cons, ne_eq,
        not_false_eq_true, decide_True, if_true, List.map_cons, play, store_msg]
      rw [e1]
      by_cases hf : t s.ntransfer (op_xfer row) < 0
      · simp only [hf, if_true]
        refine ⟨?_, e4⟩
        simp only [obs, e1, e2, e3]
      · simp only [hf, if_false]
        have := ih _ e4
        rw [e2, e3] at this
        exact this

/-- Treat any non-negative return value as `0`, as the callers of
`adv7611_set_reg` do. -/
theorem seq_norm (f g : State → Int × State) (s : State) :
    seq (fun s => if (f s).1 < 0 then f s else (0, (f s).2)) g s = seq f g s := by
  unfold seq
  by_cases h : (f s).1 < 0 <;> simp [h]

theorem range_succ_map (f : Nat → Nat) (n : Nat) :
    (List.range (n + 1)).map f = f 0 :: (List.range n).map (fun i => f (i + 1)) := by
  rw [List.range_succ_eq_map]
  simp [List.map_map, Function.comp_def]

/-- The bytes of the buffer after `buf[0] = 0; memcpy(&buf[1], src, n)`. -/
theorem block_data_gen (mem src : Nat → Nat) (n : Nat) :
    (List.range (n + 1)).map (memcpy (Function.update mem 0 0) 1 src n)
      = 0 :: (List.range n).map src := by
  rw [range_succ_map]
  congr 1
  apply List.map_congr_left
  intro i hi
  have hi' : i < n := List.mem_range.mp hi
  simp [memcpy]
  omega

theorem block_data (mem src : Nat → Nat) :
    (List.range 257).map (memcpy (Function.update mem 0 0) 1 src 256)
      = 0 :: (List.range 256).map src :=
  block_data_gen mem src 256

theorem range_map_ptr (p : List Nat) : (List.range p.length).map (ptr p) = p := by
  apply List.ext_getElem
  · simp
  · intro i h1 h2
    simp [ptr, List.getD_eq_getElem?_getD, List.getElem?_eq_getElem h2]

set_option maxRecDepth 10000 in
theorem initial_edid_length : adv7611_initial_edid.length = 256 := by rfl

set_option maxRecDepth 10000 in
/-- The block write of `adv7611_hdmi_edid`. -/
theorem hdmi_edid_block_runs (t : Transport) :
    Runs t (fun s =>
      let r := adv7611_set_reg t
        { s with
          adv7611_edid_buffer :=
            memcpy (Function.update s.adv7611_edid_buffer 0 0) 1 (ptr adv7611_initial_edid)
              adv7611_initial_edid.length,
          msg := { addr := ADV7611_I2C_EDID_ADDR >>> 1, flags := s.msg.flags,
                   len := s.msg.len, buf := BufPtr.edid } }
        ADV7611_EDID_BUFFER_SIZE
      if r.1 < 0 then r else (0, r.2))
      [Event.xfer (edid_block adv7611_initial_edid)] := by
  intro s hs
  have hd : (List.range 257).map (memcpy (Function.update s.adv7611_edid_buffer 0 0) 1
      (ptr adv7611_initial_edid) 256) = 0 :: adv7611_initial_edid := by
    rw [block_data]
    have := range_map_ptr adv7611_initial_edid
    rw [initial_edid_length] at this
    rw [this]
  simp only [adv7611_set_reg, obs, play, edid_block, hs, flags_clear, State.mem,
    ADV7611_EDID_BUFFER_SIZE, ADV7611_EDID_SIZE, initial_edid_length, hd]
  split <;> exact ⟨rfl, rfl⟩

theorem hpa_runs (t : Transport) (delay : Int) :
    Runs t (fun s => adv7611_hpa t s delay) (hpa_events delay) := by
  intro s hs
  rcases s with ⟨eb, sb, ⟨a, f, l, b⟩, lk, n, lg⟩
  simp only at hs
  subst hs
  cases b <;>
  · simp only [adv7611_hpa, mdelay, hpa_events, play, obs, hpd_write, adv7611_set_reg,
      State.store, State.mem, flags_clear]
    simp only [List.range_succ, List.range_zero, List.nil_append, List.map_cons, List.map_nil,
      List.singleton_append, List.map_append]
    simp
    split
    · exact ⟨rfl, rfl⟩
    · split <;> exact ⟨rfl, rfl⟩

theorem runs_congr (t : Transport) (f g : State → Int × State) (evs : List Event)
    (h : ∀ s, f s = g s) (hg : Runs t g evs) : Runs t f evs := by
  intro s hs
  rw [h s]
  exact hg s hs

theorem runs_seq_raw (t : Transport) (f g : State → Int × State) (a b : List Event)
    (hf : Runs t (fun s => if (f s).1 < 0 then f s else (0, (f s).2)) a)
    (hg : Runs t g b) : Runs t (seq f g) (a ++ b) :=
  runs_congr t _ _ _ (fun s => (seq_norm f g s).symm) (runs_seq t _ g a b hf hg)

theorem mapping_runs (t : Transport) :
    Runs t (adv7611_mapping t)
      ((live_rows adv7611_io_mapping).map (fun o => Event.xfer (op_xfer o)) ++ []) :=
  runs_congr t _ (seq (reg_table_loop t adv7611_io_mapping) (fun s => (0, s))) _
    (fun _ => rfl) (runs_seq t _ _ _ _ (reg_table_loop_runs t _) (runs_ret0 t))

theorem hdmi_edid_runs (t : Transport) :
    Runs t (adv7611_hdmi_edid t)
      ((live_rows adv7611_hdmi_hpa).map (fun o => Event.xfer (op_xfer o)) ++
       ((live_rows adv7611_hdmi_edid_pre).map (fun o => Event.xfer (op_xfer o)) ++
        ([Event.xfer (edid_block adv7611_initial_edid)] ++
         ((live_rows adv7611_hdmi_edid_post).map (fun o => Event.xfer (op_xfer o)) ++ [])))) :=
  runs_congr t _
    (seq (reg_table_loop t adv7611_hdmi_hpa)
      (seq (reg_table_loop t adv7611_hdmi_edid_pre)
        (seq (fun s =>
            adv7611_set_reg t
              { s with
                adv7611_edid_buffer :=
                  memcpy (Function.update s.adv7611_edid_buffer 0 0) 1 (ptr adv7611_initial_edid)
                    adv7611_initial_edid.length,
                msg := { addr := ADV7611_I2C_EDID_ADDR >>> 1, flags := s.msg.flags,
                         len := s.msg.len, buf := BufPtr.edid } }
              ADV7611_EDID_BUFFER_SIZE)
          (seq (reg_table_loop t adv7611_hdmi_edid_post) (fun s => (0, s)))))) _
    (fun _ => rfl)
    (runs_seq t _ _ _ _ (reg_table_loop_runs t _)
      (runs_seq t _ _ _ _ (reg_table_loop_runs t _)
        (runs_seq_raw t _ _ _ _ (hdmi_edid_block_runs t)
          (runs_seq t _ _ _ _ (reg_table_loop_runs t _) (runs_ret0 t)))))

theorem mdelay_runs (t : Transport) (ms : Int) :
    Runs t (fun s => (0, mdelay s ms)) [Event.mdelay ms] := by
  intro s hs
  exact ⟨rfl, hs⟩

theorem input_config_runs (t : Transport) :
    Runs t (adv7611_input_config t)
      ((live_rows adv7611_config).map (fun o => Event.xfer (op_xfer o)) ++
       ((live_rows adv7611_i2s_config).map (fun o => Event.xfer (op_xfer o)) ++
        [Event.mdelay 10])) :=
  runs_congr t _
    (seq (reg_table_loop t adv7611_config)
      (seq (reg_table_loop t adv7611_i2s_config) (fun s => (0, mdelay s 10)))) _
    (fun _ => rfl)
    (runs_seq t _ _ _ _ (reg_table_loop_runs t _)
      (runs_seq t _ _ _ _ (reg_table_loop_runs t _) (mdelay_runs t 10)))

set_option maxRecDepth 10000 in
/-- The loops stop at the closing sentinel of each table and nowhere before. -/
theorem bringup_events_eq :
    (live_rows adv7611_io_mapping).map (fun o => Event.xfer (op_xfer o)) ++ [] ++
      ((live_rows adv7611_hdmi_hpa).map (fun o => Event.xfer (op_xfer o)) ++
          ((live_rows adv7611_hdmi_edid_pre).map (fun o => Event.xfer (op_xfer o)) ++
            ([Event.xfer (edid_block adv7611_initial_edid)] ++
              ((live_rows adv7611_hdmi_edid_post).map (fun o => Event.xfer (op_xfer o)) ++ []))) ++
        ((live_rows adv7611_config).map (fun o => Event.xfer (op_xfer o)) ++
            ((live_rows adv7611_i2s_config).map (fun o => Event.xfer (op_xfer o)) ++
              [Event.mdelay 10]) ++
          hpa_events ADV7611_HPA_DELAY_MS)) = bringup_events := by
  rfl

/-- The four bring-up stages in a row. -/
theorem stages_runs (t : Transport) :
    Runs t
      (seq (adv7611_mapping t) (seq (adv7611_hdmi_edid t) (seq (adv7611_input_config t)
        (fun s => adv7611_hpa t s ADV7611_HPA_DELAY_MS))))
      bringup_events := by
  have h := runs_seq t _ _ _ _ (mapping_runs t)
    (runs_seq t _ _ _ _ (hdmi_edid_runs t)
      (runs_seq t _ _ _ _ (input_config_runs t) (hpa_runs t ADV7611_HPA_DELAY_MS)))
  rw [bringup_events_eq] at h
  exact h

/-- Bring-up, once the adapter and the device context are there, is the play
of `bringup_events`, followed by the registration of the sysfs file when no
transfer has failed. -/
theorem device_config_play (t : Transport) (env : Env) (s : State)
    (ha : env.adapter = true) (hk : env.kzalloc_ok = true) :
    (adv7611_device_config t env s).1 =
        (if (play t bringup_events s.ntransfer s.log).1 < 0
         then (play t bringup_events s.ntransfer s.log).1 else env.sysfs_ret) ∧
      (adv7611_device_config t env s).2.ntransfer =
        (play t bringup_events s.ntransfer s.log).2.1 ∧
      (adv7611_device_config t env s).2.log =
        (play t bringup_events s.ntransfer s.log).2.2 := by
  obtain ⟨h1, -⟩ := stages_runs t
    { s with msg := { addr := 0, flags := 0, len := 0, buf := BufPtr.stack }, lock := false } rfl
  have e1 := congrArg (fun p => p.1) h1
  have e2 := congrArg (fun p => p.2.1) h1
  have e3 := congrArg (fun p => p.2.2) h1
  simp only [obs] at e1 e2 e3
  rw [← e1, ← e2, ← e3]
  simp only [adv7611_device_config, ha, hk, seq, Bool.not_true, Bool.false_eq_true, if_false]
  by_cases c1 : (adv7611_mapping t { s with msg := { addr := 0, flags := 0, len := 0, buf := BufPtr.stack }, lock := false }).1 < 0
  · simp [c1]
  · simp only [c1, if_false]
    generalize (adv7611_mapping t { s with msg := { addr := 0, flags := 0, len := 0, buf := BufPtr.stack }, lock := false }).2 = s1
    by_cases c2 : (adv7611_hdmi_edid t s1).1 < 0
    · simp [c2]
    · simp only [c2, if_false]
      generalize (adv7611_hdmi_edid t s1).2 = s2
      by_cases c3 : (adv7611_input_config t s2).1 < 0
      · simp [c3]
      · simp only [c3, if_false]
        generalize (adv7611_input_config t s2).2 = s3
        by_cases c4 : (adv7611_hpa t s3 ADV7611_HPA_DELAY_MS).1 < 0
        · simp [c4]
        · simp only [c4, if_false]
          by_cases c5 : env.sysfs_ret = 0
          · simp [c5]
          · simp [c5]

theorem xfers_append (a b : List Event) : xfers (a ++ b) = xfers a ++ xfers b := by
  induction a with
  | nil => rfl
  | cons e rest ih => cases e <;> simp [xfers, ih]

/-- On a bus that fails none of the script's transfers the whole script is
played. -/
theorem play_ok (t : Transport) (evs : List Event) :
    ∀ (n : Nat) (log : List Event),
      (∀ i x, (xfers evs)[i]? = some x → 0 ≤ t (n + i) x) →
      play t evs n log = (0, n + (xfers evs).length, log ++ evs) := by
  induction evs with
  | nil => intro n log _; simp [play, xfers]
  | cons e rest ih =>
    intro n log h
    cases e with
    | xfer x =>
      have h0 : ¬ t n x < 0 := by
        have := h 0 x (by simp [xfers])
        simpa using this
      have hr : ∀ i y, (xfers rest)[i]? = some y → 0 ≤ t (n + 1 + i) y := by
        intro i y hy
        have := h (i + 1) y (by simpa [xfers] using hy)
        rwa [show n + (i + 1) = n + 1 + i by omega] at this
      simp only [play, h0, if_false, ih (n + 1) _ hr, xfers, List.length_cons,
        List.append_assoc, List.singleton_append]
      congr 2
      omega
    | mdelay ms =>
      have hr : ∀ i y, (xfers rest)[i]? = some y → 0 ≤ t (n + i) y := fun i y hy => h i y hy
      simp [play, xfers, ih n _ hr]
    | mutex_lock =>
      have hr : ∀ i y, (xfers rest)[i]? = some y → 0 ≤ t (n + i) y := fun i y hy => h i y hy
      simp [play, xfers, ih n _ hr]
    | mutex_unlock =>
      have hr : ∀ i y, (xfers rest)[i]? = some y → 0 ≤ t (n + i) y := fun i y hy => h i y hy
      simp [play, xfers, ih n _ hr]

/-- The play stops right after the first failing transfer. -/
theorem play_fail (t : Transport) (evs : List Event) :
    ∀ (n : Nat) (log : List Event) (j : Nat) (xj : Xfer),
      (∀ i x, (xfers evs)[i]? = some x → i < j → 0 ≤ t (n + i) x) →
      (xfers evs)[j]? = some xj → t (n + j) xj < 0 →
      (play t evs n log).1 = t (n + j) xj ∧ (play t evs n log).2.1 = n + j + 1 ∧
      (play t evs n log).2.2 = log ++ upto evs j := by
  induction evs with
  | nil => intro n log j xj _ hj _; simp [xfers] at hj
  | cons e rest ih =>
    intro n log j xj h hj hf
    cases e with
    | xfer x =>
      cases j with
      | zero =>
        have hx : x = xj := by simpa [xfers] using hj
        subst hx
        have hf' : t n x < 0 := by simpa using hf
        simp [play, hf', upto]
      | succ j =>
        have h0 : ¬ t n x < 0 := by
          have := h 0 x (by simp [xfers]) (Nat.succ_pos j)
          simpa using this
        have hr : ∀ i y, (xfers rest)[i]? = some y → i < j → 0 ≤ t (n + 1 + i) y := by
          intro i y hy hij
          have := h (i + 1) y (by simpa [xfers] using hy) (by omega)
          rwa [show n + (i + 1) = n + 1 + i by omega] at this
        have hj' : (xfers rest)[j]? = some xj := by simpa [xfers] using hj
        have hf' : t (n + 1 + j) xj < 0 := by
          rwa [show n + (j + 1) = n + 1 + j by omega] at hf
        obtain ⟨a, b, c⟩ := ih (n + 1) (log ++ [Event.xfer x]) j xj hr hj' hf'
        simp only [play, h0, if_false, a, b, c, upto, List.append_assoc,
          List.singleton_append]
        refine ⟨?_, ?_, trivial⟩
        · rw [show n + (j + 1) = n + 1 + j by omega]
        · omega
    | mdelay ms =>
      obtain ⟨a, b, c⟩ := ih n (log ++ [Event.mdelay ms]) j xj
        (fun i y hy hij => h i y hy hij) hj hf
      simp [play, a, b, c, upto]
    | mutex_lock =>
      obtain ⟨a, b, c⟩ := ih n (log ++ [Event.mutex_lock]) j xj
        (fun i y hy hij => h i y hy hij) hj hf
      simp [play, a, b, c, upto]
    | mutex_unlock =>
      obtain ⟨a, b, c⟩ := ih n (log ++ [Event.mutex_unlock]) j xj
        (fun i y hy hij => h i y hy hij) hj hf
      simp [play, a, b, c, upto]

theorem xfers_upto (evs : List Event) :
    ∀ j, xfers (upto evs j) = (xfers evs).take (j + 1) := by
  induction evs with
  | nil => intro j; simp [upto, xfers]
  | cons e rest ih =>
    intro j
    cases e with
    | xfer x =>
      cases j with
      | zero => simp [upto, xfers]
      | succ j => simp [upto, xfers, ih j]
    | mdelay ms => simp [upto, xfers, ih j]
    | mutex_lock => simp [upto, xfers, ih j]
    | mutex_unlock => simp [upto, xfers, ih j]

set_option maxRecDepth 10000 in
theorem xfers_bringup_events : xfers bringup_events = bringup_xfers := by rfl

set_option maxRecDepth 10000 in
theorem bringup_xfers_length : bringup_xfers.length = 60 := by rfl

/-- The hot-plug pulse touches neither the lock nor, when `msg->buf` points to
the local array, the EDID buffer. -/
theorem hpa_frame (t : Transport) (s : State) (delay : Int) :
    (adv7611_hpa t s delay).2.lock = s.lock ∧
    (s.msg.buf = BufPtr.stack →
      (adv7611_hpa t s delay).2.adv7611_edid_buffer = s.adv7611_edid_buffer) := by
  rcases s with ⟨eb, sb, ⟨a, f, l, b⟩, lk, n, lg⟩
  cases b <;>
  · simp only [adv7611_hpa, mdelay, adv7611_set_reg, State.store, State.mem]
    split
    · simp
    · split <;> simp

set_option maxRecDepth 10000 in
/-- The function `adv7611_set_edid` unfolded: the block write decides the return value;
after a block write that went through the pulse runs from `set_edid_mid`. -/
theorem set_edid_unfold (t : Transport) (s : State) (buf : Nat → Nat) :
    adv7611_set_edid t s buf =
      if t s.ntransfer (edid_block ((List.range 256).map buf)) < 0 then
        (t s.ntransfer (edid_block ((List.range 256).map buf)),
          { set_edid_mid s buf with
            msg := { addr := ADV7611_I2C_EDID_ADDR >>> 1, flags := 0, len := 257,
                     buf := BufPtr.edid } })
      else (0, (adv7611_hpa t (set_edid_mid s buf) ADV7611_HPA_DELAY_MS).2) := by
  simp only [adv7611_set_edid, adv7611_set_reg, State.mem, ADV7611_EDID_BUFFER_SIZE,
    ADV7611_EDID_SIZE, flags_clear, block_data, set_edid_mid, edid_block]
  rfl

theorem okT_ok : ∀ (n : Nat) (x : Xfer), 0 ≤ okT n x := by
  intro n x
  show (0 : Int) ≤ 1
  decide

set_option maxRecDepth 10000 in
theorem bringup_take_seven : bringup_xfers.take 7 = table_xfers adv7611_io_mapping := by rfl

theorem mapping_addr : ∀ x ∈ table_xfers adv7611_io_mapping, x.addr = ADV7611_I2C_IO_ADDR >>> 1 := by
  decide

/-- The EDID buffer after `adv7611_set_edid`, whatever the bus does. -/
theorem set_edid_buffer (t : Transport) (s : State) (buf : Nat → Nat) :
    (List.range 257).map (adv7611_set_edid t s buf).2.adv7611_edid_buffer
      = 0 :: (List.range 256).map buf := by
  rw [set_edid_unfold]
  split
  · exact block_data _ _
  · rw [(hpa_frame t (set_edid_mid s buf) ADV7611_HPA_DELAY_MS).2 rfl]
    exact block_data _ _

theorem set_edid_lock (t : Transport) (s : State) (buf : Nat → Nat) :
    (adv7611_set_edid t s buf).2.lock = s.lock := by
  rw [set_edid_unfold]
  split
  · rfl
  · rw [(hpa_frame t (set_edid_mid s buf) ADV7611_HPA_DELAY_MS).1]
    rfl

theorem set_edid_ret (t : Transport) (s : State) (buf : Nat → Nat) :
    (adv7611_set_edid t s buf).1 =
      if t s.ntransfer (edid_block ((List.range 256).map buf)) < 0
      then t s.ntransfer (edid_block ((List.range 256).map buf)) else 0 := by
  rw [set_edid_unfold]
  split <;> rfl

/-- The kernel calls of `adv7611_set_edid`, for every bus: the block write;
then, unless it failed, the de-assert write; then, unless that failed, the
delay of 500 ms and the assert write. -/
theorem set_edid_log_exact (t : Transport) (s : State) (buf : Nat → Nat) :
    (adv7611_set_edid t s buf).2.log =
      s.log ++ Event.xfer (edid_block ((List.range 256).map buf)) ::
        (if t s.ntransfer (edid_block ((List.range 256).map buf)) < 0 then []
         else if t (s.ntransfer + 1) (hpd_write 0x00) < 0 then [Event.xfer (hpd_write 0x00)]
         else [Event.xfer (hpd_write 0x00), Event.mdelay 500, Event.xfer (hpd_write 0x80)]) := by
  rw [set_edid_unfold]
  by_cases hb : t s.ntransfer (edid_block ((List.range 256).map buf)) < 0
  · simp only [hb, if_true]
    rfl
  · simp only [hb, if_false]
    obtain ⟨h, -⟩ := hpa_runs t ADV7611_HPA_DELAY_MS (set_edid_mid s buf) rfl
    have h3 := congrArg (fun p => p.2.2) h
    simp only [obs] at h3
    rw [h3]
    simp only [hpa_events, play, set_edid_mid]
    by_cases hl : t (s.ntransfer + 1) (hpd_write 0x00) < 0
    · simp [hl]
    · simp only [hl, if_false]
      split <;> simp [ADV7611_HPA_DELAY_MS]

/-- The number of transfers of `adv7611_set_edid`, for every bus. -/
theorem set_edid_ntransfer (t : Transport) (s : State) (buf : Nat → Nat) :
    (adv7611_set_edid t s buf).2.ntransfer =
      s.ntransfer +
        (if t s.ntransfer (edid_block ((List.range 256).map buf)) < 0 then 1
         else if t (s.ntransfer + 1) (hpd_write 0x00) < 0 then 2 else 3) := by
  rw [set_edid_unfold]
  by_cases hb : t s.ntransfer (edid_block ((List.range 256).map buf)) < 0
  · simp only [hb, if_true]
    rfl
  · simp only [hb, if_false]
    obtain ⟨h, -⟩ := hpa_runs t ADV7611_HPA_DELAY_MS (set_edid_mid s buf) rfl
    have h2 := congrArg (fun p => p.2.1) h
    simp only [obs] at h2
    rw [h2]
    simp only [hpa_events, play, set_edid_mid]
    by_cases hl : t (s.ntransfer + 1) (hpd_write 0x00) < 0
    · simp [hl]
    · simp only [hl, if_false]
      split <;> simp

theorem to_ssize_t_small (bits n : Nat) (h : n < 2 ^ (bits - 1)) :
    to_ssize_t bits n = (n : Int) := by
  have hle : 2 ^ (bits - 1) ≤ 2 ^ bits := Nat.pow_le_pow_right (by decide) (Nat.sub_le bits 1)
  have hmod : n % 2 ^ bits = n := Nat.mod_eq_of_lt (lt_of_lt_of_le h hle)
  simp [to_ssize_t, hmod, h]

/-! ## The claims -/

set_option maxRecDepth 100000 in
/-- C1 fails on the code.  After a bring-up on which no transfer fails,
`adv7611_device_config` returns 0, but `msg->buf` has pointed to
`adv7611_edid_buffer` since the block write, so every later register write
has put its register and value into bytes 0 and 1 of the buffer: they end as
`0x20` and `0x80`, the last HPD write.  Byte 1 is the first byte of the
payload, `0x00` in `adv7611_initial_edid`; `adv7611_edid_read` at offset 0 with
count 256 returns 256 bytes that start with `0x80` and differ from the
fallback payload in this one byte. -/
theorem bringup_clobbers_edid_buffer :
    (adv7611_device_config okT env0 s0).1 = 0 ∧
    (adv7611_device_config okT env0 s0).2.adv7611_edid_buffer 0 = 0x20 ∧
    (adv7611_device_config okT env0 s0).2.adv7611_edid_buffer 1 = 0x80 ∧
    adv7611_initial_edid.head? = some 0x00 ∧
    adv7611_edid_read (adv7611_device_config okT env0 s0).2 0 256
      = (256, 0x80 :: adv7611_initial_edid.tail) ∧
    (adv7611_edid_read (adv7611_device_config okT env0 s0).2 0 256).2
      ≠ adv7611_initial_edid := by
  decide

/-- C2: for every 256-byte payload `p`, on a bus that fails no transfer,
`adv7611_set_edid` returns 0, leaves `adv7611_edid_buffer` equal to `0x00`
followed by `p`, and makes exactly these kernel calls: the 257-byte write of
`[0x00] ++ p` to the EDID sub-device (`0x6C >> 1`), the write of `0x00` to
register `0x20` of the IO sub-device (`0x98 >> 1`), `mdelay(500)`, and the
write of `0x80` to the same register; three transfers in all. -/
theorem set_edid_replaces_and_pulses (t : Transport) (s : State) (p : List Nat)
    (hp : p.length = 256) (hok : ∀ (n : Nat) (x : Xfer), 0 ≤ t n x) :
    (adv7611_set_edid t s (ptr p)).1 = 0 ∧
    (List.range 257).map (adv7611_set_edid t s (ptr p)).2.adv7611_edid_buffer = 0 :: p ∧
    (adv7611_set_edid t s (ptr p)).2.log =
      s.log ++ [Event.xfer { addr := 0x6C >>> 1, flags := 0, data := 0 :: p },
        Event.xfer { addr := 0x98 >>> 1, flags := 0, data := [0x20, 0x00] },
        Event.mdelay 500,
        Event.xfer { addr := 0x98 >>> 1, flags := 0, data := [0x20, 0x80] }] ∧
    (adv7611_set_edid t s (ptr p)).2.ntransfer = s.ntransfer + 3 ∧
    (0 :: p).length = 257 := by
  have hmap : (List.range 256).map (ptr p) = p := by
    have := range_map_ptr p
    rwa [hp] at this
  have hb : ¬ t s.ntransfer (edid_block p) < 0 := by
    have := hok s.ntransfer (edid_block p)
    omega
  obtain ⟨h, -⟩ := hpa_runs t ADV7611_HPA_DELAY_MS (set_edid_mid s (ptr p)) rfl
  rw [play_ok t _ _ _ (fun i x _ => hok _ x)] at h
  have h2 := congrArg (fun q => q.2.1) h
  have h3 := congrArg (fun q => q.2.2) h
  simp only [obs] at h2 h3
  refine ⟨?_, ?_, ?_, ?_, ?_⟩
  · rw [set_edid_unfold, hmap]; simp [hb]
  · rw [set_edid_buffer, hmap]
  · rw [set_edid_unfold, hmap]
    simp only [hb, if_false, h3]
    simp only [set_edid_mid, hmap, List.append_assoc]
    rfl
  · rw [set_edid_unfold, hmap]
    simp only [hb, if_false, h2]
    simp [set_edid_mid, hpa_events, xfers]
  · simp [hp]

/-- C2 at the payload of 256 bytes `0xAA`, on the bus `okT`, from the state at
module load. -/
theorem set_edid_replaces_and_pulses_witness :
    (adv7611_set_edid okT s0 (ptr (List.replicate 256 0xAA))).1 = 0 ∧
    (List.range 257).map
      (adv7611_set_edid okT s0 (ptr (List.replicate 256 0xAA))).2.adv7611_edid_buffer
      = 0 :: List.replicate 256 0xAA :=
  ⟨(set_edid_replaces_and_pulses okT s0 (List.replicate 256 0xAA)
      (List.length_replicate 256 0xAA) okT_ok).1,
   (set_edid_replaces_and_pulses okT s0 (List.replicate 256 0xAA)
      (List.length_replicate 256 0xAA) okT_ok).2.1⟩

set_option maxRecDepth 10000 in
/-- C3 fails on the code: when the bus fails the block write,
`adv7611_set_edid` returns at once; the failed block write is the only
transfer and no HPD write follows it. -/
theorem set_edid_block_failure_no_pulse :
    failAt 0 s0.ntransfer (edid_block (List.replicate 256 0xAA)) < 0 ∧
    xfers (adv7611_set_edid (failAt 0) s0 (ptr (List.replicate 256 0xAA))).2.log
      = [edid_block (List.replicate 256 0xAA)] ∧
    hpd_write 0x00 ∉
      xfers (adv7611_set_edid (failAt 0) s0 (ptr (List.replicate 256 0xAA))).2.log := by
  have hmap : (List.range 256).map (ptr (List.replicate 256 0xAA)) = List.replicate 256 0xAA := by
    have := range_map_ptr (List.replicate 256 0xAA)
    rwa [List.length_replicate] at this
  have hf : failAt 0 s0.ntransfer (edid_block (List.replicate 256 0xAA)) < 0 := by
    show (if s0.ntransfer = 0 then (-5 : Int) else 1) < 0
    decide
  have hl : xfers (adv7611_set_edid (failAt 0) s0 (ptr (List.replicate 256 0xAA))).2.log
      = [edid_block (List.replicate 256 0xAA)] := by
    rw [set_edid_unfold, hmap]
    simp only [hf, if_true]
    rfl
  refine ⟨hf, hl, ?_⟩
  rw [hl]
  intro hmem
  have haddr : (hpd_write 0x00).addr = (edid_block (List.replicate 256 0xAA)).addr :=
    congrArg Xfer.addr (List.mem_singleton.mp hmem)
  revert haddr
  decide

/-- C3 as amended: when the bus fails the 257-byte block write,
`adv7611_set_edid` returns that error at once: the block write is the only
kernel call it makes, and neither an HPD write nor a delay follows. -/
theorem set_edid_block_failure_returns_at_once (t : Transport) (s : State)
    (buf : Nat → Nat)
    (hfail : t s.ntransfer (edid_block ((List.range 256).map buf)) < 0) :
    (adv7611_set_edid t s buf).1 = t s.ntransfer (edid_block ((List.range 256).map buf)) ∧
    (adv7611_set_edid t s buf).2.log =
      s.log ++ [Event.xfer (edid_block ((List.range 256).map buf))] ∧
    (adv7611_set_edid t s buf).2.ntransfer = s.ntransfer + 1 := by
  rw [set_edid_unfold, if_pos hfail]
  exact ⟨rfl, rfl, rfl⟩

/-- C3 as amended, at a bus failing the first transfer with `-EIO`. -/
theorem set_edid_block_failure_returns_at_once_witness :
    (adv7611_set_edid (failAt 0) s0 (fun _ => 0xAA)).1 =
      failAt 0 s0.ntransfer (edid_block ((List.range 256).map (fun _ => 0xAA))) ∧
    (adv7611_set_edid (failAt 0) s0 (fun _ => 0xAA)).2.log =
      s0.log ++ [Event.xfer (edid_block ((List.range 256).map (fun _ => 0xAA)))] :=
  ⟨(set_edid_block_failure_returns_at_once (failAt 0) s0 (fun _ => 0xAA)
      (show (if s0.ntransfer = 0 then (-5 : Int) else 1) < 0 by decide)).1,
   (set_edid_block_failure_returns_at_once (failAt 0) s0 (fun _ => 0xAA)
      (show (if s0.ntransfer = 0 then (-5 : Int) else 1) < 0 by decide)).2.1⟩

/-- C4: the return value of `adv7611_set_edid` is decided by the block write
alone, for every bus and every payload: the bus's negative error code when the
block write fails, and 0 otherwise, whatever happens to the two HPD writes. -/
theorem set_edid_return_decided_by_block_write (t : Transport) (s : State)
    (buf : Nat → Nat) :
    (adv7611_set_edid t s buf).1 =
      if t s.ntransfer (edid_block ((List.range 256).map buf)) < 0
      then t s.ntransfer (edid_block ((List.range 256).map buf)) else 0 :=
  set_edid_ret t s buf

/-- C5 fails on the code: a write of one byte (`count = 1`) is not refused.
It returns 1, overwrites the buffer and makes three transfers. -/
theorem edid_write_accepts_short_count :
    (adv7611_edid_write 64 okT s0 (fun _ => 0xAA) 0 1).map
        (fun r => (r.1, r.2.adv7611_edid_buffer 1, (xfers r.2.log).length))
      = some (1, 0xAA, 3) ∧
    s0.adv7611_edid_buffer 1 = 0 ∧ xfers s0.log = [] := by
  refine ⟨?_, rfl, rfl⟩
  simp only [adv7611_edid_write, mutex_lock, s0, Bool.false_eq_true, if_false, mutex_unlock]
  rw [set_edid_unfold]
  have hb : ¬ okT 0 (edid_block ((List.range 256).map (fun _ => 0xAA))) < 0 := by
    have := okT_ok 0 (edid_block ((List.range 256).map (fun _ => 0xAA)))
    omega
  simp only [hb, if_false]
  decide

/-- C5 as amended: `adv7611_edid_write` looks neither at `count` nor at
`off`.  Every call made with the lock free, whatever its `count`, returns
after exactly these kernel calls: `mutex_lock`; the block write of `0x00` and
the 256 bytes at `buf`, which by then are the contents of
`adv7611_edid_buffer`; unless the block write failed, the write of `0x00` to
the HPD register; unless that failed, `mdelay(500)` and the write of `0x80`;
`mutex_unlock`, last.  The lock is free afterwards.  The call returns the
bus's negative error code when the block write failed and otherwise `count`
converted to `ssize_t`, which is `count` itself below
`2 ^ (BITS_PER_LONG - 1)`, so 256 for a 256-byte write on 32 and 64 bits. -/
theorem edid_write_ignores_count (BITS_PER_LONG : Nat) (t : Transport) (s : State)
    (buf : Nat → Nat) (off : Int) (count : Nat) (hl : s.lock = false) :
    ∃ r, adv7611_edid_write BITS_PER_LONG t s buf off count = some r ∧
      r.1 = (if t s.ntransfer (edid_block ((List.range 256).map buf)) < 0
             then t s.ntransfer (edid_block ((List.range 256).map buf))
             else to_ssize_t BITS_PER_LONG count) ∧
      (count < 2 ^ (BITS_PER_LONG - 1) → to_ssize_t BITS_PER_LONG count = (count : Int)) ∧
      to_ssize_t 32 256 = 256 ∧ to_ssize_t 64 256 = 256 ∧
      (List.range 257).map r.2.adv7611_edid_buffer = 0 :: (List.range 256).map buf ∧
      r.2.log = s.log ++
        [Event.mutex_lock, Event.xfer (edid_block ((List.range 256).map buf))] ++
        (if t s.ntransfer (edid_block ((List.range 256).map buf)) < 0 then []
         else if t (s.ntransfer + 1) (hpd_write 0x00) < 0 then [Event.xfer (hpd_write 0x00)]
         else [Event.xfer (hpd_write 0x00), Event.mdelay 500, Event.xfer (hpd_write 0x80)]) ++
        [Event.mutex_unlock] ∧
      r.2.ntransfer = s.ntransfer +
        (if t s.ntransfer (edid_block ((List.range 256).map buf)) < 0 then 1
         else if t (s.ntransfer + 1) (hpd_write 0x00) < 0 then 2 else 3) ∧
      r.2.lock = false := by
  have hret := set_edid_ret t
    { s with lock := true, log := s.log ++ [Event.mutex_lock] } buf
  have hbuf := set_edid_buffer t { s with lock := true, log := s.log ++ [Event.mutex_lock] } buf
  have hlog := set_edid_log_exact t
    { s with lock := true, log := s.log ++ [Event.mutex_lock] } buf
  have hn := set_edid_ntransfer t
    { s with lock := true, log := s.log ++ [Event.mutex_lock] } buf
  simp only at hret hlog hn
  have hw : adv7611_edid_write BITS_PER_LONG t s buf off count =
      some (if t s.ntransfer (edid_block ((List.range 256).map buf)) < 0
            then t s.ntransfer (edid_block ((List.range 256).map buf))
            else to_ssize_t BITS_PER_LONG count,
        mutex_unlock
          (adv7611_set_edid t { s with lock := true, log := s.log ++ [Event.mutex_lock] } buf).2) := by
    simp only [adv7611_edid_write, mutex_lock, hl, Bool.false_eq_true, if_false, hret]
    by_cases hb : t s.ntransfer (edid_block ((List.range 256).map buf)) < 0
    · simp [hb]
    · simp [hb]
  refine ⟨_, hw, rfl, to_ssize_t_small BITS_PER_LONG count, by decide, by decide, hbuf, ?_, ?_,
    rfl⟩
  · simp only [mutex_unlock, hlog]
    simp
  · simp only [mutex_unlock, hn]

/-- C5 as amended, at a write of one byte on the bus `okT`, on 64 bits: the
call returns 1 after the lock, the block write, the pulse and the unlock. -/
theorem edid_write_ignores_count_witness :
    ∃ r, adv7611_edid_write 64 okT s0 (fun _ => 0xAA) 0 1 = some r ∧
      r.1 = (if okT s0.ntransfer (edid_block ((List.range 256).map (fun _ => 0xAA))) < 0
             then okT s0.ntransfer (edid_block ((List.range 256).map (fun _ => 0xAA)))
             else to_ssize_t 64 1) ∧
      to_ssize_t 64 1 = ((1 : Nat) : Int) :=
  match edid_write_ignores_count 64 okT s0 (fun _ => 0xAA) 0 1 rfl with
  | ⟨r, h1, h2, h3, _⟩ => ⟨r, h1, h2, h3 (by decide)⟩

/-- C6: bring-up is fail-fast.  For `1 ≤ k ≤ 60`, when the bus lets the first
`k - 1` bring-up transfers through and fails the `k`-th with the error `e`,
`adv7611_device_config` returns `e`, and the transfers it has made are exactly
the first `k` of `bringup_xfers`, the failing one last.  For `k = 3` these are
the first three address-mapper entries and nothing else. -/
theorem bringup_fail_fast (t : Transport) (env : Env) (s : State) (k : Nat) (e : Int)
    (ha : env.adapter = true) (hk : env.kzalloc_ok = true)
    (hk1 : 1 ≤ k) (hk60 : k ≤ 60)
    (hok : ∀ (i : Nat) (x : Xfer), bringup_xfers[i]? = some x → i + 1 < k →
      0 ≤ t (s.ntransfer + i) x)
    (hfail : ∀ x : Xfer, bringup_xfers[k - 1]? = some x → t (s.ntransfer + (k - 1)) x = e)
    (he : e < 0) :
    (adv7611_device_config t env s).1 = e ∧
    xfers (adv7611_device_config t env s).2.log = xfers s.log ++ bringup_xfers.take k ∧
    (adv7611_device_config t env s).2.ntransfer = s.ntransfer + k ∧
    (k = 3 → xfers (adv7611_device_config t env s).2.log =
      xfers s.log ++ (table_xfers adv7611_io_mapping).take 3) := by
  have hlt : k - 1 < bringup_xfers.length := by rw [bringup_xfers_length]; omega
  obtain ⟨xk, hxk⟩ : ∃ xk, bringup_xfers[k - 1]? = some xk :=
    ⟨bringup_xfers[k - 1], List.getElem?_eq_getElem hlt⟩
  have hxe := hfail xk hxk
  obtain ⟨h1, h2, h3⟩ := device_config_play t env s ha hk
  obtain ⟨p1, p2, p3⟩ := play_fail t bringup_events s.ntransfer s.log (k - 1) xk
    (by
      intro i x hx hi
      rw [xfers_bringup_events] at hx
      exact hok i x hx (by omega))
    (by rw [xfers_bringup_events]; exact hxk)
    (by rw [hxe]; exact he)
  rw [hxe] at p1
  have hlog : xfers (adv7611_device_config t env s).2.log
      = xfers s.log ++ bringup_xfers.take k := by
    rw [h3, p3, xfers_append, xfers_upto, xfers_bringup_events,
      show k - 1 + 1 = k by omega]
  refine ⟨?_, hlog, ?_, ?_⟩
  · rw [h1, p1]; simp [he]
  · rw [h2, p2]; omega
  · intro h3k
    rw [hlog, h3k]
    rfl

/-- C6 at a bus failing the third transfer, from the state at module load:
the bind fails with `-EIO` after the first three address-mapper writes. -/
theorem bringup_fail_fast_witness :
    (adv7611_device_config (failAt 2) env0 s0).1 = -5 ∧
    xfers (adv7611_device_config (failAt 2) env0 s0).2.log =
      xfers s0.log ++ (table_xfers adv7611_io_mapping).take 3 :=
  have h := bringup_fail_fast (failAt 2) env0 s0 3 (-5) rfl rfl (by decide) (by decide)
    (by
      intro i x _ hi
      have hne : ¬ (s0.ntransfer + i = 2) := by simp only [s0]; omega
      simp [failAt, hne])
    (by intro x _; rfl)
    (by decide)
  ⟨h.1, h.2.2.2 rfl⟩

/-- C7 fails on the code: with every transfer before the hot-plug pulse
let through and the sysfs registration set to succeed, a failure of the
de-assert write makes bring-up return `-EIO`, not `0`. -/
theorem bringup_hpd_failure_fails_bind :
    (∀ (i : Nat) (x : Xfer), i < 58 → 0 ≤ failAt 58 (s0.ntransfer + i) x) ∧
    failAt 58 (s0.ntransfer + 58) (hpd_write 0x00) < 0 ∧
    env0.sysfs_ret = 0 ∧
    (adv7611_device_config (failAt 58) env0 s0).1 = -5 ∧
    (adv7611_device_config (failAt 58) env0 s0).1 ≠ 0 := by
  have hv : (adv7611_device_config (failAt 58) env0 s0).1 = -5 := by
    obtain ⟨h1, -, -⟩ := device_config_play (failAt 58) env0 s0 rfl rfl
    obtain ⟨p1, -, -⟩ := play_fail (failAt 58) bringup_events s0.ntransfer s0.log 58
      (hpd_write 0x00)
      (by
        intro i x _ hi
        have hne : ¬ (s0.ntransfer + i = 58) := by simp only [s0]; omega
        simp [failAt, hne])
      (by rw [xfers_bringup_events]; rfl)
      (by decide)
    rw [h1, p1]
    decide
  refine ⟨?_, by decide, rfl, hv, ?_⟩
  · intro i x hi
    have hne : ¬ (s0.ntransfer + i = 58) := by simp only [s0]; omega
    simp [failAt, hne]
  · rw [hv]; decide

/-- C7 as amended: a failure of either HPD write is fatal at bring-up.  When
the bus lets the 58 transfers before the hot-plug pulse through and then fails
the de-assert write, or lets that one through too and fails the assert write,
with the error `e`, `adv7611_device_config` returns `e`. -/
theorem bringup_hpd_failure_is_fatal (t : Transport) (env : Env) (s : State) (e : Int)
    (ha : env.adapter = true) (hk : env.kzalloc_ok = true)
    (hok : ∀ (i : Nat) (x : Xfer), bringup_xfers[i]? = some x → i < 58 →
      0 ≤ t (s.ntransfer + i) x)
    (hfail : t (s.ntransfer + 58) (hpd_write 0x00) = e ∨
      (0 ≤ t (s.ntransfer + 58) (hpd_write 0x00) ∧
        t (s.ntransfer + 59) (hpd_write 0x80) = e))
    (he : e < 0) :
    (adv7611_device_config t env s).1 = e := by
  have e58 : bringup_xfers[58]? = some (hpd_write 0x00) := by rfl
  have e59 : bringup_xfers[59]? = some (hpd_write 0x80) := by rfl
  obtain ⟨h1, -, -⟩ := device_config_play t env s ha hk
  rcases hfail with h58 | ⟨h58, h59⟩
  · obtain ⟨p1, -, -⟩ := play_fail t bringup_events s.ntransfer s.log 58 (hpd_write 0x00)
      (by intro i x hx hi; rw [xfers_bringup_events] at hx; exact hok i x hx hi)
      (by rw [xfers_bringup_events]; exact e58)
      (by rw [h58]; exact he)
    rw [h1, p1, h58]; simp [he]
  · obtain ⟨p1, -, -⟩ := play_fail t bringup_events s.ntransfer s.log 59 (hpd_write 0x80)
      (by
        intro i x hx hi
        rw [xfers_bringup_events] at hx
        by_cases h : i < 58
        · exact hok i x hx h
        · have hi58 : i = 58 := by omega
          subst hi58
          rw [e58] at hx
          cases hx
          exact h58)
      (by rw [xfers_bringup_events]; exact e59)
      (by rw [h59]; exact he)
    rw [h1, p1, h59]; simp [he]

/-- C7 as amended, at a bus failing the assert write (transfer 60). -/
theorem bringup_hpd_failure_is_fatal_witness :
    (adv7611_device_config (failAt 59) env0 s0).1 = -5 :=
  bringup_hpd_failure_is_fatal (failAt 59) env0 s0 (-5) rfl rfl
    (by
      intro i x _ hi
      have hne : ¬ (s0.ntransfer + i = 59) := by simp only [s0]; omega
      simp [failAt, hne])
    (Or.inr ⟨by decide, by rfl⟩)
    (by decide)

set_option maxRecDepth 100000 in
/-- C8 fails on the code.  `adv7611_set_edid`, the exported entry, never
touches `data->lock`: called with the lock free it overwrites
`adv7611_edid_buffer` and runs the whole protocol without a single
`mutex_lock` or `mutex_unlock`, and the lock is as it was, for every bus and
payload.  Only `adv7611_edid_write` takes the lock around it. -/
theorem set_edid_takes_no_lock :
    s0.lock = false ∧
    s0.adv7611_edid_buffer 1 = 0 ∧
    (adv7611_set_edid okT s0 (fun _ => 0xAA)).2.adv7611_edid_buffer 1 = 0xAA ∧
    (adv7611_set_edid okT s0 (fun _ => 0xAA)).2.log =
      [Event.xfer (edid_block (List.replicate 256 0xAA)), Event.xfer (hpd_write 0x00),
        Event.mdelay 500, Event.xfer (hpd_write 0x80)] ∧
    Event.mutex_lock ∉ (adv7611_set_edid okT s0 (fun _ => 0xAA)).2.log ∧
    (adv7611_set_edid okT s0 (fun _ => 0xAA)).2.lock = false ∧
    (∀ (t : Transport) (s : State) (buf : Nat → Nat),
      (adv7611_set_edid t s buf).2.lock = s.lock) := by
  refine ⟨rfl, rfl, ?_, ?_, ?_, ?_, set_edid_lock⟩ <;> decide

/-- C9: against a transport that never fails, `adv7611_device_config` makes
exactly the kernel calls of `bringup_events`, whose 60 transfers are, in this
order, the 7 address-mapper entries, the HDMI register `0x6C = 0x13`, the
1-entry pre-write table, the 257-byte block `[0x00] ++ adv7611_initial_edid` to
the EDID sub-device, the 5-entry post-write table, the 41-entry input
configuration, the 2-entry I2S table and the two HPD writes.  Each table entry
`{a, r, v}` is written once, in table order, as `[r, v]` to `a >> 1`; the loop
visits every row but the closing sentinel; and a write to an address other
than the IO sub-device is never among the first seven. -/
theorem bringup_issues_every_entry (t : Transport) (env : Env) (s : State)
    (ha : env.adapter = true) (hk : env.kzalloc_ok = true)
    (hok : ∀ (n : Nat) (x : Xfer), 0 ≤ t n x) :
    (adv7611_device_config t env s).2.log = s.log ++ bringup_events ∧
    xfers (adv7611_device_config t env s).2.log = xfers s.log ++ bringup_xfers ∧
    (adv7611_device_config t env s).2.ntransfer = s.ntransfer + 60 ∧
    bringup_xfers =
      table_xfers adv7611_io_mapping ++ table_xfers adv7611_hdmi_hpa ++
      table_xfers adv7611_hdmi_edid_pre ++ [edid_block adv7611_initial_edid] ++
      table_xfers adv7611_hdmi_edid_post ++ table_xfers adv7611_config ++
      table_xfers adv7611_i2s_config ++ [hpd_write 0x00, hpd_write 0x80] ∧
    bringup_xfers.length = 60 ∧
    (edid_block adv7611_initial_edid).data.length = 257 ∧
    [adv7611_io_mapping, adv7611_hdmi_hpa, adv7611_hdmi_edid_pre, adv7611_hdmi_edid_post,
      adv7611_config, adv7611_i2s_config].map (fun tb => (table_xfers tb).length)
      = [7, 1, 1, 5, 41, 2] ∧
    (∀ tb ∈ [adv7611_io_mapping, adv7611_hdmi_hpa, adv7611_hdmi_edid_pre,
        adv7611_hdmi_edid_post, adv7611_config, adv7611_i2s_config],
      live_rows tb = tb.dropLast ∧ tb.getLast? = some (0, 0, 0)) ∧
    (∀ (i : Nat) (x : Xfer), bringup_xfers[i]? = some x →
      x.addr ≠ ADV7611_I2C_IO_ADDR >>> 1 → 7 ≤ i) := by
  obtain ⟨-, h2, h3⟩ := device_config_play t env s ha hk
  have hp := play_ok t bringup_events s.ntransfer s.log (fun i x _ => hok _ x)
  rw [hp] at h2 h3
  simp only [xfers_bringup_events, bringup_xfers_length] at h2
  refine ⟨h3, ?_, h2, rfl, bringup_xfers_length, ?_, ?_, ?_, ?_⟩
  · rw [h3, xfers_append, xfers_bringup_events]
  · simp [edid_block, initial_edid_length]
  · decide
  · decide
  · intro i x hx hne
    by_contra hlt
    have hi : i < 7 := by omega
    have h7 : (bringup_xfers.take 7)[i]? = some x := by
      rw [List.getElem?_take]
      simp [hi, hx]
    rw [bringup_take_seven] at h7
    exact hne (mapping_addr x (List.getElem?_mem h7))

/-- C9 at the bus `okT`, from the state at module load. -/
theorem bringup_issues_every_entry_witness :
    (adv7611_device_config okT env0 s0).2.log = s0.log ++ bringup_events ∧
    (adv7611_device_config okT env0 s0).2.ntransfer = s0.ntransfer + 60 :=
  ⟨(bringup_issues_every_entry okT env0 s0 rfl rfl okT_ok).1,
   (bringup_issues_every_entry okT env0 s0 rfl rfl okT_ok).2.2.1⟩

/-- C10: the hot-plug pulse.  For every delay `d`, a call of `adv7611_hpa`
whose de-assert write the bus lets through makes exactly three kernel calls:
the write of `0x00` to IO register `0x20`, `mdelay(d)`, the write of `0x80` to
the same register (`hpd_xfer`, a write: the read flag is clear).  Both call sites pass 500: a run of `adv7611_set_edid`
whose block write and de-assert write go through makes the block write and
then this pulse with `d = 500`, and a bring-up whose first 59 transfers go
through ends with this pulse with `d = 500`. -/
theorem hpa_deassert_delay_assert (t : Transport) (s : State) (d : Int)
    (hlow : 0 ≤ t s.ntransfer (hpd_xfer (clear_rd s.msg.flags) 0x00)) :
    (adv7611_hpa t s d).2.log = s.log ++
      [Event.xfer (hpd_xfer (clear_rd s.msg.flags) 0x00), Event.mdelay d,
       Event.xfer (hpd_xfer (clear_rd s.msg.flags) 0x80)] ∧
    ADV7611_HPA_DELAY_MS = 500 ∧
    (∀ (u : Transport) (s1 : State) (buf : Nat → Nat),
      0 ≤ u s1.ntransfer (edid_block ((List.range 256).map buf)) →
      0 ≤ u (s1.ntransfer + 1) (hpd_write 0x00) →
      (adv7611_set_edid u s1 buf).2.log =
        s1.log ++ [Event.xfer (edid_block ((List.range 256).map buf)),
          Event.xfer (hpd_write 0x00), Event.mdelay 500, Event.xfer (hpd_write 0x80)]) ∧
    (∀ (u : Transport) (env : Env) (s1 : State),
      env.adapter = true → env.kzalloc_ok = true →
      (∀ (i : Nat) (x : Xfer), bringup_xfers[i]? = some x → i < 59 →
        0 ≤ u (s1.ntransfer + i) x) →
      ∃ before, (adv7611_device_config u env s1).2.log =
        before ++ [Event.xfer (hpd_write 0x00), Event.mdelay 500,
          Event.xfer (hpd_write 0x80)]) := by
  refine ⟨?_, rfl, ?_, ?_⟩
  · rcases s with ⟨eb, sb, ⟨a, f, l, b⟩, lk, n, lg⟩
    have hlow' : ¬ t n (hpd_xfer (clear_rd f) 0x00) < 0 := by simpa using hlow
    simp only [hpd_xfer] at hlow'
    cases b <;>
    · simp only [adv7611_hpa, mdelay, adv7611_set_reg, State.store, State.mem, clear_rd_idem,
        hpd_xfer]
      simp only [List.range_succ, List.range_zero, List.nil_append, List.map_cons,
        List.map_nil, List.singleton_append, List.map_append]
      simp [hlow']
      split <;> rfl
  · intro u s1 buf hb hl
    rw [set_edid_unfold]
    have hb' : ¬ u s1.ntransfer (edid_block ((List.range 256).map buf)) < 0 := by
      simpa using hb
    simp only [hb', if_false]
    obtain ⟨h, -⟩ := hpa_runs u ADV7611_HPA_DELAY_MS (set_edid_mid s1 buf) rfl
    have h3 := congrArg (fun p => p.2.2) h
    simp only [obs] at h3
    rw [h3]
    have hl' : ¬ u (s1.ntransfer + 1) (hpd_write 0x00) < 0 := by simpa using hl
    simp only [hpa_events, play, set_edid_mid, hl', if_false]
    split <;> simp [ADV7611_HPA_DELAY_MS]
  · intro u env s1 ha hk hok
    obtain ⟨-, -, h3⟩ := device_config_play u env s1 ha hk
    have e59 : bringup_xfers[59]? = some (hpd_write 0x80) := by rfl
    refine ⟨s1.log ++ bringup_events.take 59, ?_⟩
    have hsplit : s1.log ++ bringup_events = s1.log ++ bringup_events.take 59 ++
        [Event.xfer (hpd_write 0x00), Event.mdelay 500, Event.xfer (hpd_write 0x80)] := by
      rw [List.append_assoc]
      rfl
    by_cases hlast : u (s1.ntransfer + 59) (hpd_write 0x80) < 0
    · obtain ⟨-, -, p3⟩ := play_fail u bringup_events s1.ntransfer s1.log 59 (hpd_write 0x80)
        (by intro i x hx hi; rw [xfers_bringup_events] at hx; exact hok i x hx hi)
        (by rw [xfers_bringup_events]; exact e59) hlast
      rw [h3, p3, ← hsplit]
      rfl
    · have hp := play_ok u bringup_events s1.ntransfer s1.log (by
        intro i x hx
        rw [xfers_bringup_events] at hx
        by_cases h : i < 59
        · exact hok i x hx h
        · have hlen : i < bringup_xfers.length := (List.getElem?_eq_some.mp hx).1
          rw [bringup_xfers_length] at hlen
          have hi59 : i = 59 := by omega
          subst hi59
          rw [e59] at hx
          cases hx
          omega)
      rw [h3, hp, hsplit]

/-- C10 at the bus `okT`, from the state at module load, with a delay of
7 ms. -/
theorem hpa_deassert_delay_assert_witness :
    (adv7611_hpa okT s0 7).2.log = s0.log ++
      [Event.xfer (hpd_xfer (clear_rd s0.msg.flags) 0x00), Event.mdelay 7,
       Event.xfer (hpd_xfer (clear_rd s0.msg.flags) 0x80)] :=
  (hpa_deassert_delay_assert okT s0 7 (okT_ok _ _)).1

end Adv7611
